import Mathlib

/-!
Shallow embedding of the gosqs library (consumer worker/run protocol, lease
extension, publisher/consumer send paths, message attribute model) for
checking the natural-language specification against the code.

Conventions:
* Go pointers (types such as the string pointers inside
  MessageAttributeValue) are modelled as Option values; dereferencing a nil
  pointer, i.e. a Go panic, is modelled by a result of none.
* Go maps from string keys are modelled as association lists with a
  first-match lookup.
* Backend calls (SendMessage, Publish, DeleteMessage, ChangeMessageVisibility)
  are external collaborators: their outcomes are supplied as explicit inputs
  (a Bool, or a function from the attempt index to the outcome), and the
  functions under verification return the observable behaviour (calls issued,
  attempt counts, result values).
-/

namespace Gosqs

/-- Model of the aws-sdk MessageAttributeValue struct restricted to the fields
gosqs reads: both DataType and StringValue are string pointers, hence Option. -/
structure MessageAttributeValue where
  DataType : Option String
  StringValue : Option String
deriving DecidableEq

/-- Model of the aws-sdk sqs.Message struct restricted to the fields gosqs
reads: Body and ReceiptHandle are string pointers; MessageAttributes is a map
that may itself be nil. -/
structure SqsMessage where
  Body : Option String
  ReceiptHandle : Option String
  MessageAttributes : Option (List (String × MessageAttributeValue))
deriving DecidableEq

/-- First-match lookup in an attribute map, modelling Go map indexing
(each key occurs at most once in a Go map, so first-match is exact). -/
def attrLookup (key : String) : List (String × MessageAttributeValue) → Option MessageAttributeValue
  | [] => none
  | (k, v) :: rest => if k = key then some v else attrLookup key rest

/-- Model of the customAttribute struct from config.go. -/
structure CustomAttribute where
  Title : String
  DataType : String
  Value : String
deriving DecidableEq

/-- Model of defaultSQSAttributes from config.go: a map holding the route
attribute (String datatype, value the event name) plus the custom attributes. -/
def defaultSQSAttributes (event : String) (ca : List CustomAttribute) : List (String × MessageAttributeValue) :=
  ("route", ⟨some "String", some event⟩) :: ca.map (fun a => (a.Title, ⟨some a.DataType, some a.Value⟩))

/-- Model of the message.Route method: it evaluates
the StringValue pointer of the route map entry without any guard.
A none result models the nil-pointer-dereference panic that Go raises when the
attribute map is nil, the route key is absent, or the entry's StringValue
pointer is nil (for example a Binary-typed attribute). -/
def SqsMessage.Route (m : SqsMessage) : Option String :=
  match m.MessageAttributes with
  | none => none
  | some attrs =>
    match attrLookup "route" attrs with
    | none => none
    | some v => v.StringValue

/-- Model of the message.Attribute method: a guarded map lookup that returns
the empty string when the key is absent (Go map indexing on a nil map is also
not-ok, hence the nil-map case returns the empty string), and otherwise
dereferences the entry's StringValue pointer unguarded; none models that
nil-pointer panic. -/
def SqsMessage.Attribute (m : SqsMessage) (key : String) : Option String :=
  match m.MessageAttributes with
  | none => some ""
  | some attrs =>
    match attrLookup key attrs with
    | none => some ""
    | some v => v.StringValue

/-- Whether the message's attribute map is non-nil and contains the route key. -/
def hasRouteAttr (m : SqsMessage) : Bool :=
  match m.MessageAttributes with
  | none => false
  | some attrs => (attrLookup "route" attrs).isSome

/-- Whether the message's attribute map is non-nil and contains the given key. -/
def hasAttrKey (m : SqsMessage) (key : String) : Bool :=
  match m.MessageAttributes with
  | none => false
  | some attrs => (attrLookup key attrs).isSome

/-- Whether the route attribute, if present at all, carries a non-nil string
value (vacuously true when the map is nil or the key is absent). -/
def routeStringWellFormed (m : SqsMessage) : Bool :=
  match m.MessageAttributes with
  | none => true
  | some attrs =>
    match attrLookup "route" attrs with
    | none => true
    | some v => v.StringValue.isSome

/-- Model of the per-message normalization inside consumer.Consume: a nil
attribute map is replaced by defaultSQSAttributes of the empty event name, and
a map lacking the route key gets a route entry with String datatype and empty
string value; all other attributes are untouched. -/
def normalizeRoute (m : SqsMessage) : SqsMessage :=
  match m.MessageAttributes with
  | none => { m with MessageAttributes := some (defaultSQSAttributes "" []) }
  | some attrs =>
    match attrLookup "route" attrs with
    | some _ => { m with MessageAttributes := some attrs }
    | none => { m with MessageAttributes := some (attrs ++ [("route", ⟨some "String", some ""⟩)]) }

/-- Go error values are modelled by their message strings. -/
abbrev GoErr := String

/-- The ErrGetMessage error value from errs.go. -/
def ErrGetMessage : GoErr := "unable to retrieve message"

/-- The ErrUnableToDelete error value from errs.go. -/
def ErrUnableToDelete : GoErr := "unable to delete item in queue"

/-- A route handler: takes the message, returns some error or none (nil).
The Go context argument is a fresh cancellation-less background context and
carries no information, so it is dropped. -/
abbrev Handler := SqsMessage → Option GoErr

/-- An adapter wraps a handler into a handler of the same signature. -/
abbrev Adapter := Handler → Handler

/-- Model of the adapter loop in consumer.RegisterHandler, which iterates i
from the last index down to 0 applying adapters at i to the handler
accumulated so far; folding from the left over the reversed list is that loop. -/
def composeAdapters (adapters : List Adapter) (h : Handler) : Handler :=
  adapters.reverse.foldl (fun acc a => a acc) h

/-- Model of consumer.RegisterHandler: stores the adapter-composed handler
under the route name, overwriting any previous entry; the final closure
wrapping in the Go code is an eta-expansion and disappears in the model. -/
def RegisterHandler (hs : String → Option Handler) (name : String) (h : Handler)
    (adapters : List Adapter) : String → Option Handler :=
  fun n => if n = name then some (composeAdapters adapters h) else hs n

/-- Result of consumer.delete given whether the backend DeleteMessage call
succeeds: nil on success, ErrUnableToDelete wrapped error on failure. -/
def deleteMessage (deleteOk : Bool) : Option GoErr :=
  if deleteOk then none else some ErrUnableToDelete

/-- Observable behaviour of one consumer.run execution. -/
structure RunOutcome where
  /-- whether a lease-extension goroutine was started -/
  extendStarted : Bool
  /-- none when no handler was invoked; some r when a handler ran returning r -/
  handlerReturn : Option (Option GoErr)
  /-- whether the backend DeleteMessage call was issued -/
  deleteCalled : Bool
  /-- the error value run returns -/
  ret : Option GoErr
deriving DecidableEq

/-- Model of consumer.run. The handler registry is a function from route to
an optional handler and deleteOk supplies the backend delete outcome. The
outer none models the panic of the unguarded m.Route() dereference. When a
handler exists and errors, run returns that error immediately via
m.ErrorResponse without deleting; on handler success or missing handler it
issues the delete and returns its result. -/
def run (handlers : String → Option Handler) (deleteOk : Bool) (m : SqsMessage) :
    Option RunOutcome :=
  match m.Route with
  | none => none
  | some r =>
    match handlers r with
    | some h =>
      match h m with
      | some e => some ⟨true, some (some e), false, some e⟩
      | none => some ⟨true, some none, true, deleteMessage deleteOk⟩
    | none => some ⟨false, none, true, deleteMessage deleteOk⟩

/-!
Lease-extension loop (consumer.extend). The loop keeps a counter starting at
0 and the running extension amount starting at VisibilityTimeout. Each
iteration: if the counter has reached the extension limit, stop; otherwise
increment the counter, sleep, then non-blockingly check the completion
channel; if the handler completed, stop; otherwise add VisibilityTimeout to
the extension amount and issue a ChangeMessageVisibility call with it,
stopping if that call fails. The model takes the completion signal and the
call failures as functions of the iteration index and returns the list of
requested extension durations, in order of issue.
-/

/-- One unfolding layer of consumer.extend: fuel is the number of loop
iterations still allowed by the counter-versus-limit guard, ext is the running
extension amount, i is the iteration index used to consult the completion
signal and the extend-call failure oracle. -/
def extendCallsAux (VT : Int) (done extFail : Nat → Bool) : Nat → Int → Nat → List Int
  | 0, _, _ => []
  | fuel + 1, ext, i =>
    if done i then []
    else
      if extFail i then [ext + VT]
      else (ext + VT) :: extendCallsAux VT done extFail fuel (ext + VT) (i + 1)

/-- Model of consumer.extend: the sequence of requested extension durations,
starting from counter 0 and running extension amount VT. -/
def extend (limit : Nat) (VT : Int) (done extFail : Nat → Bool) : List Int :=
  extendCallsAux VT done extFail limit VT 0

/-!
Send paths. The outcome of each backend send attempt is an external input,
given as a function from the attempt index (0-based) to a SendResult.
-/

/-- Outcome of one backend SendMessage or Publish call. The dataLimitErr case
is the error whose message string equals the errDataLimit sentinel (the
literal 262144-byte limit error), which the publisher paths compare against
literally. -/
inductive SendResult
  | ok
  | transientErr
  | dataLimitErr
deriving DecidableEq

/-- How a send path ends: delivered (a call succeeded), abandoned (the retry
guard returned without sending), or panicked (the data-limit fatal branch). -/
inductive SendPathOutcome
  | delivered
  | abandoned
  | panicked
deriving DecidableEq

/-- The maxRetryCount constant from the publisher source. -/
def maxRetryCount : Nat := 5

/-- Model of publisher.sendDirectMessage: c is the retryCount argument
(0 when absent). If c exceeds maxRetryCount the send is silently abandoned;
otherwise one SendMessage call is made: on success done, on the data-limit
error the function panics, on any other error it sleeps 10s and recurses with
c+1. Returns the outcome and the number of SendMessage calls issued. -/
def sendDirectMessage (fails : Nat → SendResult) (c : Nat) : SendPathOutcome × Nat :=
  if maxRetryCount < c then (.abandoned, 0)
  else
    match fails c with
    | .ok => (.delivered, 1)
    | .dataLimitErr => (.panicked, 1)
    | .transientErr =>
      let r := sendDirectMessage fails (c + 1)
      (r.1, r.2 + 1)
termination_by maxRetryCount + 1 - c
decreasing_by simp_wf; omega

/-- Model of the inner retrier closure of publisher.send. Its guard compares
the enclosing send call's counter c — captured by the closure and never
incremented — against maxRetryCount; the retryCount parameter it passes to
itself as attempt+1 is unused by the guard, exactly as in the source. Since
nothing bounds the recursion when c stays at or below the cap, the model takes
fuel; a first component of none means the fuel ran out with the retrier still
looping. Returns the outcome (if reached) and the number of Publish calls
issued. -/
def sendRetrier (fails : Nat → SendResult) (c : Nat) : Nat → Nat → Option SendPathOutcome × Nat
  | 0, _ => (none, 0)
  | fuel + 1, attempt =>
    if maxRetryCount < c then (some .abandoned, 0)
    else
      match fails attempt with
      | .ok => (some .delivered, 1)
      | .dataLimitErr => (some .panicked, 1)
      | .transientErr =>
        let r := sendRetrier fails c fuel (attempt + 1)
        (r.1, r.2 + 1)

/-- Model of publisher.send called with no retryCount argument: the outer
c-greater-than-cap guard sees c = 0 and passes, and the retrier closure runs
with the captured c = 0. Serialization is external and its failure panics
before any Publish call; the model starts at the first Publish attempt. -/
def send (fails : Nat → SendResult) (fuel : Nat) : Option SendPathOutcome × Nat :=
  sendRetrier fails 0 fuel 0

/-- Model of consumer.sendDirectMessage: no retry counter and no data-limit
branch at all — on any SendMessage error it sleeps 10s and recurses with the
same input. The model takes fuel; a first component of none means the fuel ran
out with the function still retrying. Returns whether a call succeeded and the
number of SendMessage calls issued. -/
def consumerSendDirectMessage (fails : Nat → SendResult) : Nat → Nat → Option Unit × Nat
  | 0, _ => (none, 0)
  | fuel + 1, attempt =>
    match fails attempt with
    | .ok => (some (), 1)
    | _ =>
      let r := consumerSendDirectMessage fails fuel (attempt + 1)
      (r.1, r.2 + 1)

/-!
The Modify composite payload and its decoder. Values already serialized by
the external encoding/json package are modelled as JSON trees; json.Marshal
of the modify struct produces an object whose body and changes keys come from
the struct tags, and DecodeModified reads those two keys back (Go field
matching accepts the lowercase keys for the Body and Changes fields).
-/

/-- A JSON value tree. -/
inductive Json
  | null
  | bool (b : Bool)
  | num (n : Int)
  | str (s : String)
  | arr (xs : List Json)
  | obj (fields : List (String × Json))

/-- First-match lookup of a key in a JSON object field list. -/
def jsonLookup (key : String) : List (String × Json) → Option Json
  | [] => none
  | (k, v) :: rest => if k = key then some v else jsonLookup key rest

/-- Model of newModify followed by json.Marshal: the modify struct embeds the
notifier under struct tag body and the change-set under struct tag changes, so
the composite payload is a two-field object. -/
def newModify (n changes : Json) : Json :=
  .obj [("body", n), ("changes", changes)]

/-- Model of message.DecodeModified: decode the payload into a struct with a
Body field and a Changes field, which json.Unmarshal fills from the body and
changes keys of the payload object; none models a decode failure. -/
def DecodeModified (payload : Json) : Option (Json × Json) :=
  match payload with
  | .obj fields =>
    match jsonLookup "body" fields, jsonLookup "changes" fields with
    | some b, some c => some (b, c)
    | _, _ => none
  | _ => none

/-!
Concrete inputs used to instantiate and to refute claims.
-/

/-- A received message whose route attribute is post_event. -/
def msgPostEvent : SqsMessage :=
  { Body := some "{}", ReceiptHandle := some "rh-1",
    MessageAttributes := some [("route", ⟨some "String", some "post_event"⟩)] }

/-- A received message whose route attribute is post_created. -/
def msgPostCreated : SqsMessage :=
  { Body := some "{}", ReceiptHandle := some "rh-2",
    MessageAttributes := some [("route", ⟨some "String", some "post_created"⟩)] }

/-- A message with one custom attribute and no route attribute. -/
def msgNoRouteAttr : SqsMessage :=
  { Body := some "{}", ReceiptHandle := some "rh-3",
    MessageAttributes := some [("correlationId", ⟨some "String", some "abc"⟩)] }

/-- A message with a Binary-typed attribute: its StringValue pointer is nil. -/
def binaryAttrMsg : SqsMessage :=
  { Body := some "{}", ReceiptHandle := some "rh-4",
    MessageAttributes := some [("trace", ⟨some "Binary", none⟩)] }

/-- A message whose route attribute is Binary-typed, so the route entry is
present but its StringValue pointer is nil. -/
def binaryRouteMsg : SqsMessage :=
  { Body := some "{}", ReceiptHandle := some "rh-5",
    MessageAttributes := some [("route", ⟨some "Binary", none⟩)] }

/-- A registry holding one handler, for route post_event, that always returns
the ErrGetMessage error (the always-failing handler of the test suite). -/
def failingHandlers : String → Option Handler :=
  RegisterHandler (fun _ => none) "post_event" (fun _ => some ErrGetMessage) []

/-- A registry holding one handler, for route post_created, that always
succeeds. -/
def okHandlers : String → Option Handler :=
  RegisterHandler (fun _ => none) "post_created" (fun _ => none) []

/-!
Helper lemmas.
-/

/-- Looking a key up in an appended attribute list searches the front first. -/
theorem attrLookup_append_of_none (key : String) (xs ys : List (String × MessageAttributeValue))
    (h : attrLookup key xs = none) : attrLookup key (xs ++ ys) = attrLookup key ys := by
  induction xs with
  | nil => rfl
  | cons p rest ih =>
    obtain ⟨k, v⟩ := p
    by_cases hk : k = key
    · rw [attrLookup, if_pos hk] at h
      exact absurd h (by simp)
    · rw [attrLookup, if_neg hk] at h
      rw [List.cons_append, attrLookup, if_neg hk]
      exact ih h

/-- A hit in the front of an appended attribute list is preserved. -/
theorem attrLookup_append_of_some (key : String) (xs ys : List (String × MessageAttributeValue))
    (v : MessageAttributeValue) (h : attrLookup key xs = some v) :
    attrLookup key (xs ++ ys) = some v := by
  induction xs with
  | nil => exact absurd h (by simp [attrLookup])
  | cons p rest ih =>
    obtain ⟨k, w⟩ := p
    by_cases hk : k = key
    · rw [attrLookup, if_pos hk] at h
      rw [List.cons_append, attrLookup, if_pos hk]
      exact h
    · rw [attrLookup, if_neg hk] at h
      rw [List.cons_append, attrLookup, if_neg hk]
      exact ih h

/-- The reverse-order adapter loop of RegisterHandler is a right fold. -/
theorem composeAdapters_eq_foldr (adapters : List Adapter) (h : Handler) :
    composeAdapters adapters h = adapters.foldr (fun a acc => a acc) h := by
  rw [composeAdapters, List.foldl_reverse]

/-!
Claim theorems.
-/

/-- C1 counterexample: for the message routed to post_event and the registry
whose post_event handler always errors, run returns the handler error without
issuing the backend delete call (deleteCalled is false), refuting the claim
that deletion happens unconditionally after handler completion. -/
theorem run_handler_error_skips_delete_cex :
    run failingHandlers true msgPostEvent =
      some { extendStarted := true, handlerReturn := some (some ErrGetMessage),
             deleteCalled := false, ret := some ErrGetMessage } := by
  decide

/-- C1 (amended): run deletes the message exactly when the handler succeeds or
no handler is registered for the route; when the registered handler returns an
error, run returns that error immediately and the delete call is never issued. -/
theorem run_delete_iff_handler_ok (handlers : String → Option Handler) (del : Bool)
    (m : SqsMessage) (r : String) (hr : m.Route = some r) :
    (∀ h e, handlers r = some h → h m = some e →
      run handlers del m = some ⟨true, some (some e), false, some e⟩) ∧
    (∀ h, handlers r = some h → h m = none →
      run handlers del m = some ⟨true, some none, true, deleteMessage del⟩) ∧
    (handlers r = none →
      run handlers del m = some ⟨false, none, true, deleteMessage del⟩) := by
  refine ⟨?_, ?_, ?_⟩
  · intro h e hh he
    simp [run, hr, hh, he]
  · intro h hh he
    simp [run, hr, hh, he]
  · intro hh
    simp [run, hr, hh]

/-- C1 witness: the amended theorem applied to the always-failing post_event
registry at the post_event message. -/
theorem run_delete_iff_handler_ok_witness :
    run failingHandlers true msgPostEvent =
      some ⟨true, some (some ErrGetMessage), false, some ErrGetMessage⟩ :=
  (run_delete_iff_handler_ok failingHandlers true msgPostEvent "post_event" (by decide)).1
    (composeAdapters [] (fun _ => some ErrGetMessage)) ErrGetMessage
    (by simp [failingHandlers, RegisterHandler]) (by decide)

/-- C5: running a message whose route equals the registered name invokes
exactly the adapter-composed handler stored at registration (its return value
is what run observes), the composition is the right fold of the adapter list
over the handler, and the first-listed adapter is outermost. -/
theorem registered_handler_dispatch (hs : String → Option Handler) (name : String)
    (h : Handler) (adapters : List Adapter) (del : Bool) (m : SqsMessage)
    (hr : m.Route = some name) :
    (run (RegisterHandler hs name h adapters) del m).map (fun o => o.handlerReturn)
      = some (some (composeAdapters adapters h m)) ∧
    composeAdapters adapters h = adapters.foldr (fun a acc => a acc) h ∧
    (∀ a rest, adapters = a :: rest →
      composeAdapters adapters h = a (composeAdapters rest h)) := by
  refine ⟨?_, composeAdapters_eq_foldr adapters h, ?_⟩
  · have hreg : RegisterHandler hs name h adapters name = some (composeAdapters adapters h) := by
      simp [RegisterHandler]
    cases hc : composeAdapters adapters h m with
    | none => simp [run, hr, hreg, hc]
    | some e => simp [run, hr, hreg, hc]
  · intro a rest he
    subst he
    rw [composeAdapters_eq_foldr, composeAdapters_eq_foldr]
    rfl

/-- C5 witness: the dispatch theorem applied to a one-entry registry at the
post_created message. -/
theorem registered_handler_dispatch_witness :
    (run (RegisterHandler (fun _ => none) "post_created" (fun _ => none) []) true
        msgPostCreated).map (fun o => o.handlerReturn)
      = some (some (composeAdapters [] (fun _ => none) msgPostCreated)) :=
  (registered_handler_dispatch (fun _ => none) "post_created" (fun _ => none) [] true
    msgPostCreated (by decide)).1

/-- C6: when no handler is registered for the message's route, run invokes no
handler, starts no lease-extension task, still issues the delete call, and
returns the delete result, which is nil when the delete succeeds. -/
theorem run_no_handler (handlers : String → Option Handler) (del : Bool) (m : SqsMessage)
    (r : String) (hr : m.Route = some r) (hnone : handlers r = none) :
    run handlers del m =
      some { extendStarted := false, handlerReturn := none, deleteCalled := true,
             ret := deleteMessage del } ∧
    deleteMessage true = none := by
  exact ⟨by simp [run, hr, hnone], rfl⟩

/-- C6 witness: the no-handler theorem applied to the empty registry at the
post_created message. -/
theorem run_no_handler_witness :
    run (fun _ => none) true msgPostCreated =
      some { extendStarted := false, handlerReturn := none, deleteCalled := true,
             ret := deleteMessage true } :=
  (run_no_handler (fun _ => none) true msgPostCreated "post_created" (by decide) rfl).1

/-- C7: a polled message lacking a route attribute (including one with a nil
attribute map) is assigned the empty-string route by the poll-loop
normalization, every other attribute reads exactly as before, and the body and
receipt handle are untouched. -/
theorem consume_assigns_default_route (m : SqsMessage) (hnr : hasRouteAttr m = false) :
    (normalizeRoute m).Route = some "" ∧
    (∀ k, k ≠ "route" → (normalizeRoute m).Attribute k = m.Attribute k) ∧
    (normalizeRoute m).Body = m.Body ∧
    (normalizeRoute m).ReceiptHandle = m.ReceiptHandle := by
  cases hm : m.MessageAttributes with
  | none =>
    have hnorm : normalizeRoute m =
        { m with MessageAttributes := some (defaultSQSAttributes "" []) } := by
      simp [normalizeRoute, hm]
    refine ⟨?_, ?_, ?_, ?_⟩
    · simp [hnorm, SqsMessage.Route, defaultSQSAttributes, attrLookup]
    · intro k hk
      have hk2 : ¬ ("route" = k) := fun h => hk h.symm
      simp [hnorm, SqsMessage.Attribute, hm, defaultSQSAttributes, attrLookup, hk2]
    · simp [hnorm]
    · simp [hnorm]
  | some attrs =>
    have hlk : attrLookup "route" attrs = none := by
      rw [hasRouteAttr, hm] at hnr
      cases h : attrLookup "route" attrs with
      | none => rfl
      | some v => simp [h] at hnr
    have hnorm : normalizeRoute m =
        { m with MessageAttributes := some (attrs ++ [("route", ⟨some "String", some ""⟩)]) } := by
      simp [normalizeRoute, hm, hlk]
    refine ⟨?_, ?_, ?_, ?_⟩
    · simp only [hnorm, SqsMessage.Route]
      rw [attrLookup_append_of_none "route" attrs _ hlk]
      simp [attrLookup]
    · intro k hk
      have hk2 : ¬ ("route" = k) := fun h => hk h.symm
      simp only [hnorm, SqsMessage.Attribute, hm]
      cases hka : attrLookup k attrs with
      | none =>
        rw [attrLookup_append_of_none k attrs _ hka]
        simp [attrLookup, hk2]
      | some v =>
        rw [attrLookup_append_of_some k attrs _ v hka]
    · simp [hnorm]
    · simp [hnorm]

/-- C7 witness: the normalization theorem applied to the message carrying only
a correlationId attribute: it gains the empty route and keeps the
correlationId attribute readable unchanged. -/
theorem consume_assigns_default_route_witness :
    (normalizeRoute msgNoRouteAttr).Route = some "" ∧
    (normalizeRoute msgNoRouteAttr).Attribute "correlationId"
      = msgNoRouteAttr.Attribute "correlationId" :=
  ⟨(consume_assigns_default_route msgNoRouteAttr (by decide)).1,
   (consume_assigns_default_route msgNoRouteAttr (by decide)).2.1 "correlationId" (by decide)⟩

/-- C9 counterexample: a message holding a Binary-typed attribute has the key
present, yet Attribute dereferences its nil StringValue pointer and faults
(result none models the panic), refuting the claim that Attribute never
faults. -/
theorem attribute_faults_on_binary_cex :
    hasAttrKey binaryAttrMsg "trace" = true ∧
    SqsMessage.Attribute binaryAttrMsg "trace" = none := by
  decide

/-- C9 (amended): Attribute returns the empty string whenever the key is
absent (also on a nil attribute map), so an absent key is indistinguishable
from one stored with the empty string; when the key is present the result is
exactly the entry's StringValue pointer, so it faults precisely when that
pointer is nil. -/
theorem attribute_total_amended (m : SqsMessage) (key : String) :
    (hasAttrKey m key = false → m.Attribute key = some "") ∧
    (∀ attrs v, m.MessageAttributes = some attrs → attrLookup key attrs = some v →
      m.Attribute key = v.StringValue) := by
  constructor
  · intro hk
    cases hm : m.MessageAttributes with
    | none => simp [SqsMessage.Attribute, hm]
    | some attrs =>
      rw [hasAttrKey, hm] at hk
      cases h : attrLookup key attrs with
      | none => simp [SqsMessage.Attribute, hm, h]
      | some v => simp [h] at hk
  · intro attrs v hm hv
    simp [SqsMessage.Attribute, hm, hv]

/-- C9 witness: the amended theorem applied to the post_created message at an
absent key. -/
theorem attribute_total_amended_witness :
    SqsMessage.Attribute msgPostCreated "correlationId" = some "" :=
  (attribute_total_amended msgPostCreated "correlationId").1 (by decide)

/-- C10 counterexample: a message whose route attribute is Binary-typed (nil
StringValue pointer) passes through the poll-loop normalization unchanged,
since only key presence is checked, and Route still faults on it, refuting
the claim that the route lookup never faults for poll-loop messages. -/
theorem route_faults_after_normalize_cex :
    normalizeRoute binaryRouteMsg = binaryRouteMsg ∧
    SqsMessage.Route binaryRouteMsg = none := by
  decide

/-- C10 (amended): Route is defined only when the attribute map contains the
route key (nil map or absent key faults); the poll-loop normalization always
yields a message containing the route key; and the normalized message's Route
is defined provided the original route entry, when present at all, carried a
non-nil string value — the nil-StringValue route entry is the one poll-loop
shape on which Route still faults. -/
theorem route_totality (m : SqsMessage) :
    (∀ r, m.Route = some r → hasRouteAttr m = true) ∧
    (hasRouteAttr m = false → m.Route = none) ∧
    hasRouteAttr (normalizeRoute m) = true ∧
    (routeStringWellFormed m = true → ((normalizeRoute m).Route).isSome = true) := by
  refine ⟨?_, ?_, ?_, ?_⟩
  · intro r hroute
    cases hm : m.MessageAttributes with
    | none => simp [SqsMessage.Route, hm] at hroute
    | some attrs =>
      cases h : attrLookup "route" attrs with
      | none => simp [SqsMessage.Route, hm, h] at hroute
      | some v => simp [hasRouteAttr, hm, h]
  · intro hk
    cases hm : m.MessageAttributes with
    | none => simp [SqsMessage.Route, hm]
    | some attrs =>
      cases h : attrLookup "route" attrs with
      | none => simp [SqsMessage.Route, hm, h]
      | some v => simp [hasRouteAttr, hm, h] at hk
  · cases hm : m.MessageAttributes with
    | none => simp [hasRouteAttr, normalizeRoute, hm, defaultSQSAttributes, attrLookup]
    | some attrs =>
      cases h : attrLookup "route" attrs with
      | none =>
        simp only [hasRouteAttr, normalizeRoute, hm, h]
        rw [attrLookup_append_of_none "route" attrs _ h]
        simp [attrLookup]
      | some v => simp [hasRouteAttr, normalizeRoute, hm, h]
  · intro hwf
    cases hm : m.MessageAttributes with
    | none => simp [normalizeRoute, SqsMessage.Route, hm, defaultSQSAttributes, attrLookup]
    | some attrs =>
      cases h : attrLookup "route" attrs with
      | none =>
        simp only [normalizeRoute, SqsMessage.Route, hm, h]
        rw [attrLookup_append_of_none "route" attrs _ h]
        simp [attrLookup]
      | some v =>
        simp only [routeStringWellFormed, hm, h] at hwf
        simp [normalizeRoute, SqsMessage.Route, hm, h, hwf]

/-- C10 witness: the totality theorem applied to the routeless message: after
normalization the route key is present and Route is defined. -/
theorem route_totality_witness :
    hasRouteAttr (normalizeRoute msgNoRouteAttr) = true ∧
    ((normalizeRoute msgNoRouteAttr).Route).isSome = true :=
  ⟨(route_totality msgNoRouteAttr).2.2.1,
   (route_totality msgNoRouteAttr).2.2.2 (by decide)⟩

/-- The lease-extension loop issues at most as many calls as its counter
budget allows. -/
theorem extendCallsAux_length_le (VT : Int) (done extFail : Nat → Bool) :
    ∀ fuel ext i, (extendCallsAux VT done extFail fuel ext i).length ≤ fuel := by
  intro fuel
  induction fuel with
  | zero => intro ext i; simp [extendCallsAux]
  | succ n ih =>
    intro ext i
    rw [extendCallsAux]
    by_cases hd : done i
    · simp [hd]
    · by_cases hf : extFail i
      · simp [hd, hf]
      · simp only [hd, hf, if_false, List.length_cons]
        exact Nat.succ_le_succ (ih (ext + VT) (i + 1))

/-- Each issued extension request equals the running amount at entry plus
VT times one more than its position. -/
theorem extendCallsAux_get (VT : Int) (done extFail : Nat → Bool) :
    ∀ fuel ext i j v, (extendCallsAux VT done extFail fuel ext i).get? j = some v →
      v = ext + VT * ((j : Int) + 1) := by
  intro fuel
  induction fuel with
  | zero => intro ext i j v hv; simp [extendCallsAux] at hv
  | succ n ih =>
    intro ext i j v hv
    rw [extendCallsAux] at hv
    by_cases hd : done i
    · simp [hd] at hv
    · rw [if_neg hd] at hv
      by_cases hf : extFail i
      · rw [if_pos hf] at hv
        cases j with
        | zero =>
          simp at hv
          omega
        | succ k => simp at hv
      · rw [if_neg hf] at hv
        cases j with
        | zero =>
          simp at hv
          omega
        | succ k =>
          rw [List.get?_cons_succ] at hv
          have := ih (ext + VT) (i + 1) k v hv
          push_cast at this ⊢
          linarith

/-- C4: for every completion-signal arrival pattern and every extend-failure
pattern, the lease-extension loop issues at most extensionLimit calls, the
call at zero-based position j requests duration VT times j plus two (so the
n-th call, n starting at 1, requests VT times n plus one), and for a positive
lease duration the requested durations strictly increase. -/
theorem extend_bound_and_monotone (limit : Nat) (VT : Int) (done extFail : Nat → Bool)
    (hVT : 0 < VT) :
    (extend limit VT done extFail).length ≤ limit ∧
    (∀ j v, (extend limit VT done extFail).get? j = some v → v = VT * ((j : Int) + 2)) ∧
    (extend limit VT done extFail).Pairwise (· < ·) := by
  refine ⟨extendCallsAux_length_le VT done extFail limit VT 0, ?_, ?_⟩
  · intro j v hv
    have := extendCallsAux_get VT done extFail limit VT 0 j v hv
    rw [this]; ring
  · rw [List.pairwise_iff_get]
    intro a b hab
    have ha := extendCallsAux_get VT done extFail limit VT 0 a _
      (List.get?_eq_get a.isLt)
    have hb := extendCallsAux_get VT done extFail limit VT 0 b _
      (List.get?_eq_get b.isLt)
    rw [ha, hb]
    have hcast : ((a : Nat) : Int) < ((b : Nat) : Int) := by exact_mod_cast hab
    nlinarith

/-- C4 witness: with the default extension limit 2 and lease duration 30, no
completion signal and no extend failure, the issued requests strictly
increase. -/
theorem extend_bound_and_monotone_witness :
    (0 : Int) < 30 ∧ (extend 2 30 (fun _ => false) (fun _ => false)).Pairwise (· < ·) :=
  ⟨by decide,
   (extend_bound_and_monotone 2 30 (fun _ => false) (fun _ => false) (by decide)).2.2⟩

/-- publisher.sendDirectMessage issues at most one call per counter value up
to the cap: its attempt count is bounded by the remaining counter budget. -/
theorem sendDirectMessage_attempts_le (fails : Nat → SendResult) :
    ∀ n c, maxRetryCount + 1 - c ≤ n → (sendDirectMessage fails c).2 ≤ maxRetryCount + 1 - c := by
  intro n
  induction n with
  | zero =>
    intro c hc
    have h5 : maxRetryCount < c := by omega
    rw [sendDirectMessage]
    simp [h5]
  | succ n ih =>
    intro c hc
    rw [sendDirectMessage]
    by_cases h5 : maxRetryCount < c
    · simp [h5]
    · rw [if_neg h5]
      cases hf : fails c with
      | ok => simp only; omega
      | dataLimitErr => simp only; omega
      | transientErr =>
        simp only
        have := ih (c + 1) (by omega)
        omega

/-- Under persistently transient failure, publisher.sendDirectMessage makes
exactly one call per counter value from c through maxRetryCount and then
abandons silently. -/
theorem sendDirectMessage_all_transient (fails : Nat → SendResult)
    (hall : ∀ n, fails n = .transientErr) :
    ∀ n c, maxRetryCount + 1 - c = n → sendDirectMessage fails c = (.abandoned, n) := by
  intro n
  induction n with
  | zero =>
    intro c hc
    have h5 : maxRetryCount < c := by omega
    rw [sendDirectMessage]
    simp [h5]
  | succ n ih =>
    intro c hc
    have h5 : ¬ maxRetryCount < c := by omega
    rw [sendDirectMessage, if_neg h5, hall c]
    simp only
    rw [ih (c + 1) (by omega)]

/-- The retrier inside publisher.send checks the never-incremented captured
counter, so with that counter at 0 and persistently transient failures it
issues one Publish call per unit of fuel and never reaches an outcome. -/
theorem sendRetrier_never_abandons (fails : Nat → SendResult)
    (hall : ∀ n, fails n = .transientErr) :
    ∀ fuel attempt, sendRetrier fails 0 fuel attempt = (none, fuel) := by
  intro fuel
  induction fuel with
  | zero => intro attempt; rfl
  | succ n ih =>
    intro attempt
    have h5 : ¬ maxRetryCount < 0 := by omega
    simp only [sendRetrier, if_neg h5, hall attempt]
    rw [ih (attempt + 1)]

/-- consumer.sendDirectMessage retries every failure unconditionally: when no
attempt succeeds it issues one SendMessage call per unit of fuel and never
stops. -/
theorem consumerSend_all_fail (fails : Nat → SendResult)
    (hall : ∀ n, fails n ≠ .ok) :
    ∀ fuel attempt, consumerSendDirectMessage fails fuel attempt = (none, fuel) := by
  intro fuel
  induction fuel with
  | zero => intro attempt; rfl
  | succ n ih =>
    intro attempt
    cases hf : fails attempt with
    | ok => exact absurd hf (hall attempt)
    | transientErr => simp only [consumerSendDirectMessage, hf]; rw [ih (attempt + 1)]
    | dataLimitErr => simp only [consumerSendDirectMessage, hf]; rw [ih (attempt + 1)]

/-- C2 counterexample: under persistently transient failure the publisher
fan-out send, given fuel for ten iterations, issues ten Publish calls —
more than the claimed cap of five retries — and has not abandoned, refuting
the claim that every send path terminates under the retry cap. -/
theorem send_unbounded_retry_cex :
    send (fun _ => .transientErr) 10 = (none, 10) ∧
    maxRetryCount + 1 < (send (fun _ => .transientErr) 10).2 := by
  decide

/-- C2 (amended): only publisher.sendDirectMessage enforces the retry cap —
its attempt count never exceeds maxRetryCount plus one and under persistently
transient failure it makes exactly maxRetryCount plus one calls and abandons
silently; the publisher fan-out send, whose guard reads the never-incremented
captured counter, and consumer.sendDirectMessage, which has no counter at all,
both retry a persistently failing transient send forever (one call per unit of
fuel, no outcome). -/
theorem send_retry_cap_amended (fails : Nat → SendResult) :
    (sendDirectMessage fails 0).2 ≤ maxRetryCount + 1 ∧
    ((∀ n, fails n = .transientErr) →
      sendDirectMessage fails 0 = (.abandoned, maxRetryCount + 1) ∧
      (∀ fuel, send fails fuel = (none, fuel)) ∧
      (∀ fuel, consumerSendDirectMessage fails fuel 0 = (none, fuel))) := by
  constructor
  · have := sendDirectMessage_attempts_le fails (maxRetryCount + 1) 0 (by omega)
    omega
  · intro hall
    refine ⟨sendDirectMessage_all_transient fails hall (maxRetryCount + 1) 0 rfl, ?_, ?_⟩
    · intro fuel
      exact sendRetrier_never_abandons fails hall fuel 0
    · intro fuel
      exact consumerSend_all_fail fails (fun n => by rw [hall n]; intro h; cases h) fuel 0

/-- C2 witness: the amended theorem applied to the always-transient failure
pattern. -/
theorem send_retry_cap_amended_witness :
    sendDirectMessage (fun _ => .transientErr) 0 = (.abandoned, maxRetryCount + 1) :=
  ((send_retry_cap_amended (fun _ => .transientErr)).2 (fun _ => rfl)).1

/-- C3 counterexample: consumer.sendDirectMessage, facing the 262144-byte
data-limit error on every attempt and given fuel for four iterations, issues
four SendMessage calls — it retries the payload-too-large failure instead of
aborting, refuting the claim that every send path aborts immediately on it. -/
theorem consumer_send_retries_data_limit_cex :
    consumerSendDirectMessage (fun _ => .dataLimitErr) 4 0 = (none, 4) ∧
    1 < (consumerSendDirectMessage (fun _ => .dataLimitErr) 4 0).2 := by
  decide

/-- C3 (amended): both publisher send paths abort fatally (panic) on the
data-limit error at the first attempt without any retry, but
consumer.sendDirectMessage does not inspect the error and retries the
data-limit failure forever like any other failure. -/
theorem data_limit_fatal_amended (fails : Nat → SendResult) (h0 : fails 0 = .dataLimitErr) :
    sendDirectMessage fails 0 = (.panicked, 1) ∧
    (∀ fuel, send fails (fuel + 1) = (some .panicked, 1)) ∧
    ((∀ n, fails n = .dataLimitErr) →
      ∀ fuel, consumerSendDirectMessage fails fuel 0 = (none, fuel)) := by
  refine ⟨?_, ?_, ?_⟩
  · rw [sendDirectMessage]
    have h5 : ¬ maxRetryCount < 0 := by omega
    rw [if_neg h5, h0]
  · intro fuel
    have h5 : ¬ maxRetryCount < 0 := by omega
    simp only [send, sendRetrier, if_neg h5, h0]
  · intro hall fuel
    exact consumerSend_all_fail fails (fun n => by rw [hall n]; intro h; cases h) fuel 0

/-- C3 witness: the amended theorem applied to the always-data-limit failure
pattern. -/
theorem data_limit_fatal_amended_witness :
    sendDirectMessage (fun _ => .dataLimitErr) 0 = (.panicked, 1) :=
  (data_limit_fatal_amended (fun _ => .dataLimitErr) rfl).1

/-- C8: decoding the composite payload produced by the Modify path recovers
both parts exactly — the decoded body is the original entity value and the
decoded change-set is the caller-supplied changes. -/
theorem modify_decode_roundtrip (entity changes : Json) :
    DecodeModified (newModify entity changes) = some (entity, changes) := by
  simp [DecodeModified, newModify, jsonLookup]

end Gosqs
